import Mathlib

/-!
Shallow embedding of `src/behold_agent/main.py` (Behold WhatsApp Shopify Agent).

Python effects are made explicit:
- environment-variable reads become `Option String` parameters (`none` = unset);
- external calls (the ADK agent stream, the Gemini API, the bridge HTTP probe)
  become `Except`-valued oracles passed in as arguments;
- `try/except` blocks become `match` on those `Except` values;
- Python truthiness of `os.getenv` / `dict.get` results (`None` and `""` are
  falsy) is the function `truthy` below.
-/

namespace Behold

/-- Python truthiness of an `os.getenv` or `dict.get` result: `None` and the
empty string are falsy, every other string is truthy. -/
def truthy : Option String → Bool
  | none => false
  | some s => !s.isEmpty

/-- Python runtime errors relevant to `main.py`: `NameError`, the FastAPI
`HTTPException` (a subclass of `Exception`), and any other `Exception`. -/
inductive PyErr where
  | nameError (name : String)
  | httpException (status : Nat) (detail : String)
  | exc (msg : String)
deriving DecidableEq, Repr

/-- Names bound at module top level before the `try: from agent.agent import
root_agent` block at lines 16-23 runs: exactly the imports of lines 5-13.
`logger` is only bound at line 31, after the block. -/
def initialScope : List String :=
  ["os", "logging", "asyncio", "asynccontextmanager", "Dict", "Any",
   "FastAPI", "Request", "HTTPException", "JSONResponse", "uvicorn"]

/-- The conditional agent import, `main.py` lines 16-23.  `importOk` is whether
`from agent.agent import root_agent` succeeds.  On success the block binds
`root_agent` and `agent_available = True` and then evaluates `logger.info(...)`;
on `ImportError` the handler evaluates `logger.warning(...)` before binding
anything.  Either `logger` reference raises `NameError` when `logger` is not in
scope, and `except ImportError` does not catch a `NameError`.  Returns the
names the block assigned before any uncaught error, and either the resulting
`(agent_available, root_agent is not None)` pair or the escaping error. -/
def tryImportAgentBlock (importOk : Bool) (scope : List String) :
    List String × Except PyErr (Bool × Bool) :=
  if importOk then
    (["root_agent", "agent_available"],
      if scope.contains "logger" then Except.ok (true, true)
      else Except.error (PyErr.nameError "logger"))
  else
    if scope.contains "logger" then
      (["root_agent", "agent_available"], Except.ok (false, false))
    else
      ([], Except.error (PyErr.nameError "logger"))

/-- Module top-level execution through the agent-import block, starting from
the scope the imports of lines 5-13 establish. -/
def moduleInit (importOk : Bool) : Except PyErr (Bool × Bool) :=
  (tryImportAgentBlock importOk initialScope).2

/-- Names the agent-import block assigns before the module aborts (or
completes), in the real initial scope of the module. -/
def moduleInitAssigns (importOk : Bool) : List String :=
  (tryImportAgentBlock importOk initialScope).1

/-- One event from the async stream of the primary backend: `text` is `none` when
the event has no `text` attribute or the attribute is `None`. -/
structure AgentEvent where
  text : Option String
deriving DecidableEq, Repr

/-- Accumulator loop of `get_agent_response`, lines 149-152: for each event,
`if hasattr(event, text) and event.text: agent_reply += event.text`. -/
def collectReplyAux (acc : String) : List AgentEvent → String
  | [] => acc
  | e :: es =>
    match e.text with
    | some t => collectReplyAux (if t.isEmpty then acc else acc ++ t) es
    | none => collectReplyAux acc es

/-- Aggregation of the drained event stream into one reply string,
`get_agent_response` in `main.py` lines 143-153. -/
def get_agent_response (events : List AgentEvent) : String :=
  collectReplyAux "" events

/-- Stated from the words of the specification, for comparison with
`get_agent_response`: the concatenation, in arrival order, of exactly the
non-empty text fragments of the event stream. -/
def concatNonEmptyFragments (events : List AgentEvent) : String :=
  String.join (events.filterMap fun e =>
    match e.text with
    | some t => if t.isEmpty then none else some t
    | none => none)

/-- Framing applied to the raw user message before primary invocation,
line 141: `user_input = f"User message: ..."`. -/
def userInputFraming (message : String) : String :=
  "User message: " ++ message

/-- The fixed Gemini prompt built by `fallback_gemini_response`,
lines 186-195. -/
def geminiPrompt (message : String) : String :=
  "You are Behold, an intelligent Shopify sales assistant. You help customers by:\n- Providing product recommendations\n- Answering questions about products\n- Guiding purchasing decisions\n- Managing carts and checkouts\n- Calculating shipping fees\n\nUser message: \"" ++
    message ++
    "\"\n\nRespond naturally and helpfully. Be concise but informative. If they\x27re asking about products, offer to help them find what they need."

/-- Fixed substitute used when Gemini returns an empty or missing text result,
line 199. -/
def genericGreeting : String :=
  "Hello! I\x27m Behold, your Shopify assistant. How can I help you today?"

/-- Deterministic canned last-resort reply, line 203. -/
def cannedReply (message : String) : String :=
  "Thanks for your message! I\x27m your Shopify assistant. You said: \x27" ++
    message ++ "\x27. How can I help you find products?"

/-- Body of the `try` in `fallback_gemini_response`, lines 174-199.  `api_key`
is `os.getenv("GOOGLE_API_KEY")`; a falsy key raises.  `gemini` is the
external `model.generate_content` call on the constructed prompt: `Except.error`
when it raises, otherwise `response.text` (`none` for a missing text).  A falsy
`response.text` is replaced by the generic greeting. -/
def fallbackAttempt (api_key : Option String)
    (gemini : String → Except String (Option String)) (message : String) :
    Except String String :=
  if truthy api_key then
    match gemini (geminiPrompt message) with
    | Except.error e => Except.error e
    | Except.ok t =>
      Except.ok (match t with
        | some s => if s.isEmpty then genericGreeting else s
        | none => genericGreeting)
  else
    Except.error "GOOGLE_API_KEY not found"

/-- Function `fallback_gemini_response`, lines 172-203: any exception inside
the attempt is caught and the canned reply returned. -/
def fallback_gemini_response (api_key : Option String)
    (gemini : String → Except String (Option String)) (message : String) :
    String :=
  match fallbackAttempt api_key gemini message with
  | Except.ok r => r
  | Except.error _ => cannedReply message

/-- Parsed JSON body of `POST /process-whatsapp-message`; each field models
`data.get(...)` (`none` when the key is absent). -/
structure MsgBody where
  user_id : Option String
  message : Option String
  message_id : Option String
deriving DecidableEq, Repr

/-- Outcome of one HTTP request handler: a 200 JSON reply or an
`HTTPException` surfaced to the caller as its status code and detail. -/
inductive HandlerResult where
  | ok (reply : String)
  | httpError (status : Nat) (detail : String)
deriving DecidableEq, Repr

/-- Body of the outer `try` of `process_whatsapp_message`, lines 124-166, as a
computation that may raise `PyErr`.  `body` is `await request.json()`
(`Except.error` when parsing raises); `primary` is the whole primary-backend
invocation on the framed input — context construction, `run_async`, and event
consumption — collapsed to either the drained event list or the exception any
of those stages raised.  Line 130 raises `HTTPException(400, ...)` when
`user_id` or `message` is falsy. -/
def processAttempt (agent_available root_agent : Bool)
    (body : Except String MsgBody)
    (primary : String → Except String (List AgentEvent))
    (api_key : Option String)
    (gemini : String → Except String (Option String)) :
    Except PyErr String :=
  match body with
  | Except.error e => Except.error (PyErr.exc e)
  | Except.ok data =>
    if !truthy data.user_id || !truthy data.message then
      Except.error (PyErr.httpException 400 "Missing user_id or message")
    else
      let message := data.message.getD ""
      if agent_available && root_agent then
        match primary (userInputFraming message) with
        | Except.ok events => Except.ok (get_agent_response events)
        | Except.error _ =>
          Except.ok (fallback_gemini_response api_key gemini message)
      else
        Except.ok (fallback_gemini_response api_key gemini message)

/-- Handler of `POST /process-whatsapp-message`, lines 120-170.  The blanket
`except Exception` at line 168 catches every escaping exception — including
the `HTTPException(400, ...)` raised at line 130, since the FastAPI
`HTTPException` subclasses `Exception` — and re-raises
`HTTPException(500, "Internal server error")`. -/
def process_whatsapp_message (agent_available root_agent : Bool)
    (body : Except String MsgBody)
    (primary : String → Except String (List AgentEvent))
    (api_key : Option String)
    (gemini : String → Except String (Option String)) : HandlerResult :=
  match processAttempt agent_available root_agent body primary api_key gemini with
  | Except.ok reply => HandlerResult.ok reply
  | Except.error _ => HandlerResult.httpError 500 "Internal server error"

/-- Process environment restricted to the five configuration variables
`debug_app` and `main` inspect; `none` models an unset variable. -/
structure Env where
  shopify_store : Option String
  shopify_admin_token : Option String
  shopify_storefront_token : Option String
  whatsapp_bridge_url : Option String
  google_api_key : Option String
deriving DecidableEq, Repr

/-- Response shape of `GET /debug/app`, lines 63-75: fixed strings, the two
agent flags, and one boolean per configuration variable. -/
structure DebugAppResponse where
  app_status : String
  agent_available : Bool
  agent_loaded : Bool
  env_SHOPIFY_STORE : Bool
  env_SHOPIFY_ADMIN_TOKEN : Bool
  env_SHOPIFY_STOREFRONT_TOKEN : Bool
  env_WHATSAPP_BRIDGE_URL : Bool
  env_GOOGLE_API_KEY : Bool
  adk_agent_mode : String
deriving DecidableEq, Repr

/-- Handler of `GET /debug/app`, lines 60-75.  Each environment entry is
`bool(os.getenv(...))`, i.e. `truthy`; `agent_loaded` is
`root_agent is not None`. -/
def debug_app (env : Env) (agent_available root_agent : Bool) :
    DebugAppResponse :=
  { app_status := "running"
    agent_available := agent_available
    agent_loaded := root_agent
    env_SHOPIFY_STORE := truthy env.shopify_store
    env_SHOPIFY_ADMIN_TOKEN := truthy env.shopify_admin_token
    env_SHOPIFY_STOREFRONT_TOKEN := truthy env.shopify_storefront_token
    env_WHATSAPP_BRIDGE_URL := truthy env.whatsapp_bridge_url
    env_GOOGLE_API_KEY := truthy env.google_api_key
    adk_agent_mode := if agent_available then "enabled" else "fallback_mode" }

/-- Outcome of `requests.get(bridge_url + "/health", timeout=10)`: an HTTP
response with status, body text, and the result of `response.json()`
(`Except.error` when decoding raises); a `ConnectionError`; or any other
exception. -/
inductive BridgeOutcome where
  | response (status : Nat) (text : String) (jsonBody : Except String String)
  | connectionError
  | otherError (msg : String)
deriving Repr

/-- Response shape of `GET /debug/bridge`: the keys the four return statements
of lines 90-118 can produce, with `none` for keys a branch omits. -/
structure BridgeDebugResponse where
  bridge_status : String
  bridge_url : String
  bridge_response : Option String
  error : Option String
  response_text : Option String
  agent_import : String
deriving DecidableEq, Repr

/-- Handler of `GET /debug/bridge`, lines 77-118.  `env_bridge_url` is
`os.getenv("WHATSAPP_BRIDGE_URL", "http://localhost:3001")` — plain default,
no truthiness.  Status 200 with decodable JSON yields `connected`; any other
status yields `error` with the status interpolated; `ConnectionError` yields
`disconnected`; any other exception (including a `response.json()` failure)
yields `error` via the final `except`. -/
def debug_bridge (env_bridge_url : Option String) (outcome : BridgeOutcome) :
    BridgeDebugResponse :=
  let bridge_url := env_bridge_url.getD "http://localhost:3001"
  match outcome with
  | BridgeOutcome.response status text jsonBody =>
    if status == 200 then
      match jsonBody with
      | Except.ok j =>
        { bridge_status := "connected"
          bridge_url := bridge_url
          bridge_response := some j
          error := none
          response_text := none
          agent_import := "not_used" }
      | Except.error e =>
        { bridge_status := "error"
          bridge_url := bridge_url
          bridge_response := none
          error := some ("Failed to check bridge: " ++ e)
          response_text := none
          agent_import := "not_used" }
    else
      { bridge_status := "error"
        bridge_url := bridge_url
        bridge_response := none
        error := some ("Bridge returned status " ++ toString status)
        response_text := some text
        agent_import := "not_used" }
  | BridgeOutcome.connectionError =>
    { bridge_status := "disconnected"
      bridge_url := bridge_url
      bridge_response := none
      error := some ("Cannot connect to WhatsApp bridge at " ++ bridge_url ++
        ". Is the bridge server running?")
      response_text := none
      agent_import := "not_used" }
  | BridgeOutcome.otherError msg =>
    { bridge_status := "error"
      bridge_url := bridge_url
      bridge_response := none
      error := some ("Failed to check bridge: " ++ msg)
      response_text := none
      agent_import := "not_used" }

/-- Handler of `GET /`, lines 50-53. -/
def rootEndpoint : String := "Behold WhatsApp Shopify Agent is running"

/-- Handler of `GET /health`, lines 55-58: the `status` and `service`
fields. -/
def health_check : String × String :=
  ("healthy", "Behold WhatsApp Shopify Agent")

/-- Handler of `POST /test-message`, lines 205-208. -/
def test_message : String := "Test message received successfully!"

/-- Outcome of `POST /test-agent`, lines 210-247. -/
inductive TestAgentResult where
  | notAvailable (agent_available : Bool)
  | success (agent_response : String) (agent_available : Bool)
      (test_input : String)
  | failure (error : String) (agent_available : Bool)
deriving DecidableEq, Repr

/-- Handler of `POST /test-agent`, lines 210-247: invokes the primary backend
on a fixed framed query. -/
def test_agent (agent_available root_agent : Bool)
    (primary : String → Except String (List AgentEvent)) : TestAgentResult :=
  if !agent_available || !root_agent then
    TestAgentResult.notAvailable agent_available
  else
    match primary (userInputFraming "What products do you have?") with
    | Except.ok events =>
      TestAgentResult.success (get_agent_response events) agent_available
        (userInputFraming "What products do you have?")
    | Except.error e =>
      TestAgentResult.failure ("Agent test failed: " ++ e) agent_available

/-- The module-level mutable state the handlers can see: the
`agent_available` flag and whether `root_agent` is bound to a non-`None`
value.  Set by the import block at lines 16-23; no handler assigns either
name (none declares `global agent_available` or `global root_agent`). -/
structure AppState where
  agent_available : Bool
  root_agent : Bool
deriving DecidableEq, Repr

/-- State-passing form of `process_whatsapp_message`: the handler reads the
module flags and writes neither. -/
def process_whatsapp_message_st (s : AppState) (body : Except String MsgBody)
    (primary : String → Except String (List AgentEvent))
    (api_key : Option String)
    (gemini : String → Except String (Option String)) :
    AppState × HandlerResult :=
  (s, process_whatsapp_message s.agent_available s.root_agent body primary
    api_key gemini)

/-- State-passing form of `fallback_gemini_response`: reads no module flag and
writes neither. -/
def fallback_gemini_response_st (s : AppState) (api_key : Option String)
    (gemini : String → Except String (Option String)) (message : String) :
    AppState × String :=
  (s, fallback_gemini_response api_key gemini message)

/-- State-passing form of the `GET /debug/app` handler. -/
def debug_app_st (s : AppState) (env : Env) : AppState × DebugAppResponse :=
  (s, debug_app env s.agent_available s.root_agent)

/-- State-passing form of the `GET /debug/bridge` handler. -/
def debug_bridge_st (s : AppState) (env_bridge_url : Option String)
    (outcome : BridgeOutcome) : AppState × BridgeDebugResponse :=
  (s, debug_bridge env_bridge_url outcome)

/-- State-passing form of the `GET /` handler. -/
def rootEndpoint_st (s : AppState) : AppState × String := (s, rootEndpoint)

/-- State-passing form of the `GET /health` handler. -/
def health_check_st (s : AppState) : AppState × (String × String) :=
  (s, health_check)

/-- State-passing form of the `POST /test-message` handler. -/
def test_message_st (s : AppState) : AppState × String := (s, test_message)

/-- State-passing form of the `POST /test-agent` handler. -/
def test_agent_st (s : AppState)
    (primary : String → Except String (List AgentEvent)) :
    AppState × TestAgentResult :=
  (s, test_agent s.agent_available s.root_agent primary)

/-- Environment with `SHOPIFY_STORE` set to the empty string and the other
four variables unset. -/
def envEmptyStore : Env :=
  { shopify_store := some ""
    shopify_admin_token := none
    shopify_storefront_token := none
    whatsapp_bridge_url := none
    google_api_key := none }

/-- Environment with `SHOPIFY_STORE` set to `"x"` and the other four
variables unset. -/
def envNonemptyStore : Env :=
  { shopify_store := some "x"
    shopify_admin_token := none
    shopify_storefront_token := none
    whatsapp_bridge_url := none
    google_api_key := none }

/-- Helper: `String.join` peels off the head of a list. -/
theorem string_join_cons (s : String) (l : List String) :
    String.join (s :: l) = s ++ String.join l := by
  simp only [String.join_eq]
  ext
  simp [String.data_append]

/-- Helper: the accumulator loop of `get_agent_response` prepends its
accumulator to the join of the non-empty fragments. -/
theorem collectReplyAux_concat (events : List AgentEvent) :
    ∀ acc : String,
      collectReplyAux acc events = acc ++ concatNonEmptyFragments events := by
  induction events with
  | nil =>
    intro acc
    simp [collectReplyAux, concatNonEmptyFragments, String.join]
  | cons e es ih =>
    intro acc
    cases h : e.text with
    | none =>
      have h1 : collectReplyAux acc (e :: es) = collectReplyAux acc es := by
        simp [collectReplyAux, h]
      have h2 : concatNonEmptyFragments (e :: es) = concatNonEmptyFragments es := by
        simp [concatNonEmptyFragments, List.filterMap_cons, h]
      rw [h1, h2, ih acc]
    | some t =>
      cases ht : t.isEmpty with
      | true =>
        have h1 : collectReplyAux acc (e :: es) = collectReplyAux acc es := by
          simp [collectReplyAux, h, ht]
        have h2 : concatNonEmptyFragments (e :: es) = concatNonEmptyFragments es := by
          simp [concatNonEmptyFragments, List.filterMap_cons, h, ht]
        rw [h1, h2, ih acc]
      | false =>
        have h1 : collectReplyAux acc (e :: es) = collectReplyAux (acc ++ t) es := by
          simp [collectReplyAux, h, ht]
        have h2 : concatNonEmptyFragments (e :: es)
            = t ++ concatNonEmptyFragments es := by
          simp [concatNonEmptyFragments, List.filterMap_cons, h, ht, string_join_cons]
        rw [h1, h2, ih (acc ++ t), String.append_assoc]

/-- Helper: with a falsy `GOOGLE_API_KEY` the fallback returns the canned
reply. -/
theorem fallback_no_key (api_key : Option String)
    (gemini : String → Except String (Option String)) (m : String)
    (h : truthy api_key = false) :
    fallback_gemini_response api_key gemini m = cannedReply m := by
  simp [fallback_gemini_response, fallbackAttempt, h]

/-- Helper: a raising Gemini call makes the fallback return the canned
reply. -/
theorem fallback_call_error (api_key : Option String)
    (gemini : String → Except String (Option String)) (m e : String)
    (h : truthy api_key = true) (hg : gemini (geminiPrompt m) = Except.error e) :
    fallback_gemini_response api_key gemini m = cannedReply m := by
  simp [fallback_gemini_response, fallbackAttempt, h, hg]

/-- Helper: a successful Gemini call with a missing (`None`) text makes the
fallback return the generic greeting. -/
theorem fallback_ok_missing (api_key : Option String)
    (gemini : String → Except String (Option String)) (m : String)
    (h : truthy api_key = true)
    (hg : gemini (geminiPrompt m) = Except.ok none) :
    fallback_gemini_response api_key gemini m = genericGreeting := by
  simp [fallback_gemini_response, fallbackAttempt, h, hg]

/-- Helper: a successful Gemini call with text `s` makes the fallback return
`s`, or the generic greeting when `s` is empty. -/
theorem fallback_ok_text (api_key : Option String)
    (gemini : String → Except String (Option String)) (m s : String)
    (h : truthy api_key = true)
    (hg : gemini (geminiPrompt m) = Except.ok (some s)) :
    fallback_gemini_response api_key gemini m
      = if s.isEmpty then genericGreeting else s := by
  simp [fallback_gemini_response, fallbackAttempt, h, hg]

/-- C1: the claim says a body missing `user_id` or `message` gets HTTP 400
naming the missing field.  The code does raise `HTTPException(400, "Missing
user_id or message")` at line 130, but the blanket `except Exception` at line
168 catches it and re-raises `HTTPException(500, "Internal server error")`,
so the caller observes 500, not 400: at body `user_id = "u1"` with no
`message`, the surfaced response is 500 while the swallowed inner exception
was the intended 400. -/
theorem c1_missing_field_surfaces_as_500 :
    process_whatsapp_message true true
        (Except.ok { user_id := some "u1", message := none, message_id := none })
        (fun _ => Except.error "unused") none (fun _ => Except.error "unused")
      = HandlerResult.httpError 500 "Internal server error"
    ∧ processAttempt true true
        (Except.ok { user_id := some "u1", message := none, message_id := none })
        (fun _ => Except.error "unused") none (fun _ => Except.error "unused")
      = Except.error (PyErr.httpException 400 "Missing user_id or message") :=
  ⟨rfl, rfl⟩

/-- C2: both branches of the conditional agent import reference `logger`
before it is bound (it is only bound after the block), so module
initialization raises an uncaught `NameError` whether or not the import
succeeds, and the module never finishes loading. -/
theorem c2_module_init_always_raises_nameError :
    ∀ importOk : Bool,
      moduleInit importOk = Except.error (PyErr.nameError "logger") := by
  intro importOk
  cases importOk <;> rfl

/-- C3: when the primary backend raises anywhere in context construction,
invocation start, or event consumption, the handler catches the exception and
returns the fallback responder result as a 200 reply — never a non-200
response. -/
theorem c3_primary_failure_absorbed (data : MsgBody)
    (primary : String → Except String (List AgentEvent)) (e : String)
    (api_key : Option String)
    (gemini : String → Except String (Option String))
    (hu : truthy data.user_id = true) (hm : truthy data.message = true)
    (hp : primary (userInputFraming (data.message.getD "")) = Except.error e) :
    process_whatsapp_message true true (Except.ok data) primary api_key gemini
      = HandlerResult.ok
          (fallback_gemini_response api_key gemini (data.message.getD "")) := by
  simp [process_whatsapp_message, processAttempt, hu, hm, hp]

/-- Witness for C3 at a concrete input. -/
theorem c3_witness :
    truthy (some "u1") = true ∧ truthy (some "hi") = true ∧
    process_whatsapp_message true true
        (Except.ok { user_id := some "u1", message := some "hi", message_id := none })
        (fun _ => Except.error "boom") none (fun _ => Except.error "down")
      = HandlerResult.ok
          (fallback_gemini_response none (fun _ => Except.error "down") "hi") :=
  ⟨rfl, rfl,
    c3_primary_failure_absorbed
      { user_id := some "u1", message := some "hi", message_id := none }
      (fun _ => Except.error "boom") "boom" none (fun _ => Except.error "down")
      rfl rfl rfl⟩

/-- C4: with the primary backend unavailable and the secondary credential
absent — or the secondary call raising — the reply is exactly the canned
template with the message interpolated verbatim; for the scenario message the
reply is the literal string of the specification.  Determinism is immediate:
the embedding is a function of its inputs. -/
theorem c4_canned_template (m : String) (hm : m.isEmpty = false)
    (gemini : String → Except String (Option String)) (k e : String)
    (hk : k.isEmpty = false) :
    process_whatsapp_message false false
        (Except.ok { user_id := some "u1", message := some m, message_id := none })
        (fun _ => Except.error "unused") none gemini
      = HandlerResult.ok (cannedReply m)
    ∧ fallback_gemini_response none gemini m = cannedReply m
    ∧ fallback_gemini_response (some k) (fun _ => Except.error e) m
        = cannedReply m
    ∧ cannedReply "What products do you have?"
        = "Thanks for your message! I\x27m your Shopify assistant. You said: \x27What products do you have?\x27. How can I help you find products?" := by
  refine ⟨?_, ?_, ?_, rfl⟩
  · have h1 : truthy (some "u1") = true := rfl
    have h2 : truthy (some m) = true := by simp [truthy, hm]
    have h3 : truthy (none : Option String) = false := rfl
    simp [process_whatsapp_message, processAttempt, h1, h2, h3,
      fallback_gemini_response, fallbackAttempt]
  · exact fallback_no_key none gemini m rfl
  · exact fallback_call_error (some k) (fun _ => Except.error e) m e
      (by simp [truthy, hk]) rfl

/-- Witness for C4 at the scenario input of the specification. -/
theorem c4_witness :
    "What products do you have?".isEmpty = false ∧ "key".isEmpty = false ∧
    process_whatsapp_message false false
        (Except.ok { user_id := some "u1",
                     message := some "What products do you have?",
                     message_id := none })
        (fun _ => Except.error "unused") none (fun _ => Except.ok none)
      = HandlerResult.ok (cannedReply "What products do you have?")
    ∧ cannedReply "What products do you have?"
        = "Thanks for your message! I\x27m your Shopify assistant. You said: \x27What products do you have?\x27. How can I help you find products?" :=
  ⟨rfl, rfl,
    (c4_canned_template "What products do you have?" rfl
      (fun _ => Except.ok none) "key" "down" rfl).1,
    (c4_canned_template "What products do you have?" rfl
      (fun _ => Except.ok none) "key" "down" rfl).2.2.2⟩

/-- C5: the fallback responder is total — its result is always one of the
canned reply, the generic greeting, or the non-empty Gemini text, so it
returns a string and never raises to its caller — and an absent credential
yields exactly the same reply as a raising secondary call. -/
theorem c5_fallback_total (m : String) (api_key : Option String)
    (gemini : String → Except String (Option String)) (k e : String)
    (hk : k.isEmpty = false) :
    (fallback_gemini_response api_key gemini m = cannedReply m
      ∨ fallback_gemini_response api_key gemini m = genericGreeting
      ∨ ∃ s : String, gemini (geminiPrompt m) = Except.ok (some s)
          ∧ s.isEmpty = false ∧ fallback_gemini_response api_key gemini m = s)
    ∧ fallback_gemini_response none gemini m
        = fallback_gemini_response (some k) (fun _ => Except.error e) m := by
  constructor
  · cases hak : truthy api_key with
    | false => exact Or.inl (fallback_no_key api_key gemini m hak)
    | true =>
      cases hg : gemini (geminiPrompt m) with
      | error ge => exact Or.inl (fallback_call_error api_key gemini m ge hak hg)
      | ok t =>
        cases t with
        | none =>
          exact Or.inr (Or.inl (fallback_ok_missing api_key gemini m hak hg))
        | some s =>
          cases hs : s.isEmpty with
          | true =>
            refine Or.inr (Or.inl ?_)
            rw [fallback_ok_text api_key gemini m s hak hg, hs]
            simp
          | false =>
            refine Or.inr (Or.inr ⟨s, rfl, hs, ?_⟩)
            rw [fallback_ok_text api_key gemini m s hak hg, hs]
            simp
  · rw [fallback_no_key none gemini m rfl,
      fallback_call_error (some k) (fun _ => Except.error e) m e
        (by simp [truthy, hk]) rfl]

/-- Witness for C5 at a concrete input. -/
theorem c5_witness :
    (fallback_gemini_response none (fun _ => Except.error "x") "hi"
        = cannedReply "hi"
      ∨ fallback_gemini_response none (fun _ => Except.error "x") "hi"
        = genericGreeting
      ∨ ∃ s : String,
          (fun _ : String => (Except.error "x" : Except String (Option String)))
              (geminiPrompt "hi") = Except.ok (some s)
          ∧ s.isEmpty = false
          ∧ fallback_gemini_response none (fun _ => Except.error "x") "hi" = s)
    ∧ fallback_gemini_response none (fun _ => Except.error "x") "hi"
        = fallback_gemini_response (some "key")
            (fun _ => Except.error "boom") "hi" :=
  c5_fallback_total "hi" none (fun _ => Except.error "x") "key" "boom" rfl

/-- C6: draining the event stream aggregates exactly the non-empty text
fragments in arrival order, the two-fragment example concatenates to
"Hello, world!", and a successfully drained stream — even one with an empty
concatenation — is returned as a 200 reply, not treated as a failure. -/
theorem c6_event_aggregation (events : List AgentEvent) (data : MsgBody)
    (primary : String → Except String (List AgentEvent))
    (api_key : Option String)
    (gemini : String → Except String (Option String))
    (hu : truthy data.user_id = true) (hm : truthy data.message = true)
    (hp : primary (userInputFraming (data.message.getD "")) = Except.ok events) :
    get_agent_response events = concatNonEmptyFragments events
    ∧ get_agent_response
        [{ text := some "Hello, " }, { text := some "world!" }] = "Hello, world!"
    ∧ process_whatsapp_message true true (Except.ok data) primary api_key gemini
        = HandlerResult.ok (get_agent_response events) := by
  refine ⟨?_, rfl, ?_⟩
  · rw [get_agent_response, collectReplyAux_concat]
    simp
  · simp [process_whatsapp_message, processAttempt, hu, hm, hp]

/-- Witness for C6 at a concrete input, with the empty stream: the empty
concatenation is surfaced as a valid 200 reply. -/
theorem c6_witness :
    truthy (some "u1") = true ∧ truthy (some "hi") = true ∧
    (get_agent_response [] = concatNonEmptyFragments []
    ∧ get_agent_response
        [{ text := some "Hello, " }, { text := some "world!" }] = "Hello, world!"
    ∧ process_whatsapp_message true true
        (Except.ok { user_id := some "u1", message := some "hi", message_id := none })
        (fun _ => Except.ok []) none (fun _ => Except.error "down")
        = HandlerResult.ok (get_agent_response [])) :=
  ⟨rfl, rfl,
    c6_event_aggregation []
      { user_id := some "u1", message := some "hi", message_id := none }
      (fun _ => Except.ok []) none (fun _ => Except.error "down") rfl rfl rfl⟩

/-- C7: a successful secondary call whose text result is missing (`None`) or
empty makes the fallback responder return the fixed generic greeting rather
than the empty result. -/
theorem c7_empty_secondary_result (k m : String) (hk : k.isEmpty = false)
    (gemini_missing gemini_empty : String → Except String (Option String))
    (hn : gemini_missing (geminiPrompt m) = Except.ok none)
    (he : gemini_empty (geminiPrompt m) = Except.ok (some "")) :
    fallback_gemini_response (some k) gemini_missing m = genericGreeting
    ∧ fallback_gemini_response (some k) gemini_empty m = genericGreeting := by
  constructor
  · exact fallback_ok_missing (some k) gemini_missing m (by simp [truthy, hk]) hn
  · rw [fallback_ok_text (some k) gemini_empty m "" (by simp [truthy, hk]) he]
    rfl

/-- Witness for C7 at a concrete input. -/
theorem c7_witness :
    "key".isEmpty = false ∧
    fallback_gemini_response (some "key") (fun _ => Except.ok none) "hi"
      = genericGreeting
    ∧ fallback_gemini_response (some "key") (fun _ => Except.ok (some "")) "hi"
      = genericGreeting :=
  ⟨rfl,
    (c7_empty_secondary_result "key" "hi" rfl
      (fun _ => Except.ok none) (fun _ => Except.ok (some "")) rfl rfl).1,
    (c7_empty_secondary_result "key" "hi" rfl
      (fun _ => Except.ok none) (fun _ => Except.ok (some "")) rfl rfl).2⟩

/-- C8: the bridge debug handler is a total function (it never raises to the
caller); a connection refusal yields `bridge_status = "disconnected"`, a
non-2xx upstream status yields `bridge_status = "error"` with the upstream
status code preserved in the error string, and `bridge_url` is echoed back in
both cases. -/
theorem c8_debug_bridge_statuses (env_bridge_url : Option String) (s : Nat)
    (text : String) (j : Except String String) (hs : s < 200 ∨ 300 ≤ s) :
    (debug_bridge env_bridge_url BridgeOutcome.connectionError).bridge_status
        = "disconnected"
    ∧ (debug_bridge env_bridge_url BridgeOutcome.connectionError).bridge_url
        = env_bridge_url.getD "http://localhost:3001"
    ∧ (debug_bridge env_bridge_url (BridgeOutcome.response s text j)).bridge_status
        = "error"
    ∧ (debug_bridge env_bridge_url (BridgeOutcome.response s text j)).error
        = some ("Bridge returned status " ++ toString s)
    ∧ (debug_bridge env_bridge_url (BridgeOutcome.response s text j)).bridge_url
        = env_bridge_url.getD "http://localhost:3001" := by
  have hs' : s ≠ 200 := by omega
  have hne : (s == 200) = false := by
    simpa using hs'
  refine ⟨rfl, rfl, ?_, ?_, ?_⟩ <;> simp [debug_bridge, hne]

/-- Witness for C8 at a concrete input. -/
theorem c8_witness :
    ((404 : Nat) < 200 ∨ 300 ≤ 404) ∧
    ((debug_bridge none BridgeOutcome.connectionError).bridge_status
        = "disconnected"
    ∧ (debug_bridge none BridgeOutcome.connectionError).bridge_url
        = Option.getD none "http://localhost:3001"
    ∧ (debug_bridge none (BridgeOutcome.response 404 "not found"
          (Except.error "bad json"))).bridge_status = "error"
    ∧ (debug_bridge none (BridgeOutcome.response 404 "not found"
          (Except.error "bad json"))).error
        = some ("Bridge returned status " ++ toString 404)
    ∧ (debug_bridge none (BridgeOutcome.response 404 "not found"
          (Except.error "bad json"))).bridge_url
        = Option.getD none "http://localhost:3001") :=
  ⟨Or.inr (by decide),
    c8_debug_bridge_statuses none 404 "not found" (Except.error "bad json")
      (Or.inr (by decide))⟩

/-- C9 counterexample: two environments that agree on which of the five
variables are present (both have `SHOPIFY_STORE` set) but whose values differ
— the empty string versus `"x"` — produce different `/debug/app` responses,
because the code reports `bool(os.getenv(...))` and Python treats the empty
string as falsy.  This refutes the claim as stated. -/
theorem c9_counterexample :
    (envEmptyStore.shopify_store.isSome = envNonemptyStore.shopify_store.isSome
     ∧ envEmptyStore.shopify_admin_token.isSome
         = envNonemptyStore.shopify_admin_token.isSome
     ∧ envEmptyStore.shopify_storefront_token.isSome
         = envNonemptyStore.shopify_storefront_token.isSome
     ∧ envEmptyStore.whatsapp_bridge_url.isSome
         = envNonemptyStore.whatsapp_bridge_url.isSome
     ∧ envEmptyStore.google_api_key.isSome
         = envNonemptyStore.google_api_key.isSome)
    ∧ debug_app envEmptyStore true true ≠ debug_app envNonemptyStore true true := by
  decide

/-- C9 amended: the `/debug/app` response depends on the five configuration
variables only through their Python truthiness — any two environments that
agree on which of the five variables are set to a non-empty value (and on the
agent flags) produce identical responses, so the values themselves are never
revealed. -/
theorem c9_presence_only (e1 e2 : Env) (a l : Bool)
    (h1 : truthy e1.shopify_store = truthy e2.shopify_store)
    (h2 : truthy e1.shopify_admin_token = truthy e2.shopify_admin_token)
    (h3 : truthy e1.shopify_storefront_token = truthy e2.shopify_storefront_token)
    (h4 : truthy e1.whatsapp_bridge_url = truthy e2.whatsapp_bridge_url)
    (h5 : truthy e1.google_api_key = truthy e2.google_api_key) :
    debug_app e1 a l = debug_app e2 a l := by
  simp [debug_app, h1, h2, h3, h4, h5]

/-- Witness for the amended C9 at concrete environments: empty-string values
and unset values are indistinguishable. -/
theorem c9_witness :
    truthy envEmptyStore.shopify_store
        = truthy (Env.mk none none none none none).shopify_store
    ∧ truthy envEmptyStore.shopify_admin_token
        = truthy (Env.mk none none none none none).shopify_admin_token
    ∧ truthy envEmptyStore.shopify_storefront_token
        = truthy (Env.mk none none none none none).shopify_storefront_token
    ∧ truthy envEmptyStore.whatsapp_bridge_url
        = truthy (Env.mk none none none none none).whatsapp_bridge_url
    ∧ truthy envEmptyStore.google_api_key
        = truthy (Env.mk none none none none none).google_api_key
    ∧ debug_app envEmptyStore true true
        = debug_app (Env.mk none none none none none) true true :=
  ⟨rfl, rfl, rfl, rfl, rfl,
    c9_presence_only envEmptyStore (Env.mk none none none none none) true true
      rfl rfl rfl rfl rfl⟩

/-- C10 counterexample: in the import-failure branch the module aborts with
`NameError` at the `logger.warning` call before `agent_available = False` at
line 23 ever executes, so in that execution the flag is assigned zero times —
refuting "assigned exactly once" as stated. -/
theorem c10_counterexample :
    moduleInitAssigns false = []
    ∧ ¬ (moduleInitAssigns false).count "agent_available" = 1 := by
  decide

/-- C10 amended: during module initialization the flag is assigned at most
once (exactly once when the import succeeds; the import-failure branch aborts
before the assignment), and no request handler — any of the seven endpoints
or the fallback responder — mutates `agent_available` or `root_agent`: every
handler returns the module state unchanged. -/
theorem c10_flags_never_mutated (importOk : Bool) (s : AppState)
    (body : Except String MsgBody)
    (primary primary2 : String → Except String (List AgentEvent))
    (api_key : Option String)
    (gemini : String → Except String (Option String)) (m : String)
    (env : Env) (env_bridge_url : Option String) (outcome : BridgeOutcome) :
    (moduleInitAssigns importOk).count "agent_available" ≤ 1
    ∧ (process_whatsapp_message_st s body primary api_key gemini).1 = s
    ∧ (fallback_gemini_response_st s api_key gemini m).1 = s
    ∧ (debug_app_st s env).1 = s
    ∧ (debug_bridge_st s env_bridge_url outcome).1 = s
    ∧ (rootEndpoint_st s).1 = s
    ∧ (health_check_st s).1 = s
    ∧ (test_message_st s).1 = s
    ∧ (test_agent_st s primary2).1 = s := by
  refine ⟨?_, rfl, rfl, rfl, rfl, rfl, rfl, rfl, rfl⟩
  cases importOk <;> decide

end Behold
